import Mathlib

/-!
Shallow embedding of the streaming-upload pipeline of `pkg/client/s3/object_put.go`
(s3Client.Put and BlockingWriteCloser) together with the Go standard-library
functions it depends on (encoding/hex, encoding/base64, strings.TrimSpace,
io.Pipe writer-side semantics, sync.WaitGroup).
-/

namespace MC

/-- Errors of the upload pipeline. `iodine.New` in the source wraps an error and
preserves the underlying value; errors are modelled unwrapped. -/
inductive GoError where
  /-- InvalidBucketName{Bucket: bucket} from the synchronous validation in Put. -/
  | invalidBucketName (bucket : String)
  /-- client.InvalidArgument, produced by the background task for size < 0. -/
  | invalidArgument
  /-- an error returned by c.newRequest. -/
  | requestBuildError (msg : String)
  /-- encoding/hex decode failure (ErrLength or InvalidByteError). -/
  | hexError
  /-- a transport-level error returned by Transport.RoundTrip. -/
  | transportError (msg : String)
  /-- Modelled from the spec: NewError(res) is defined outside the given sources;
  the spec calls it a RemoteRejectionError "carrying status and body". -/
  | remoteRejection (status : Nat) (body : String)
  /-- io.ErrClosedPipe. -/
  | errClosedPipe
  deriving DecidableEq, Repr

/-! ### encoding/hex (DecodeString) -/

/-- Go encoding/hex fromHexChar: accepts 0-9, a-f, A-F. -/
def fromHexChar (c : Char) : Option Nat :=
  if '0' ≤ c ∧ c ≤ '9' then some (c.toNat - 48)
  else if 'a' ≤ c ∧ c ≤ 'f' then some (c.toNat - 87)
  else if 'A' ≤ c ∧ c ≤ 'F' then some (c.toNat - 55)
  else none

/-- Go hex.DecodeString on the character list: a string of hex digit pairs
decodes to bytes; an odd length (ErrLength) or a non-hex character
(InvalidByteError) is an error, modelled as none. -/
def hexDecodeList : List Char → Option (List Nat)
  | [] => some []
  | [_] => none
  | c1 :: c2 :: rest =>
    match fromHexChar c1, fromHexChar c2, hexDecodeList rest with
    | some hi, some lo, some bs => some ((hi * 16 + lo) :: bs)
    | _, _, _ => none

def hexDecodeString (s : String) : Option (List Nat) :=
  hexDecodeList s.data

/-! ### encoding/base64 (StdEncoding.EncodeToString) -/

def base64Alphabet : List Char :=
  "ABCDEFGHIJKLMNOPQRSTUVWXYZabcdefghijklmnopqrstuvwxyz0123456789+/".data

def b64Char (n : Nat) : Char :=
  base64Alphabet.getD n 'A'

/-- Go base64.StdEncoding.EncodeToString on a byte list: groups of three bytes
become four alphabet characters, with '=' padding for a short final group. -/
def base64EncodeList : List Nat → List Char
  | [] => []
  | [b0] => [b64Char (b0 / 4), b64Char (b0 % 4 * 16), '=', '=']
  | [b0, b1] => [b64Char (b0 / 4), b64Char (b0 % 4 * 16 + b1 / 16),
                 b64Char (b1 % 16 * 4), '=']
  | b0 :: b1 :: b2 :: rest =>
    b64Char (b0 / 4) :: b64Char (b0 % 4 * 16 + b1 / 16) ::
    b64Char (b1 % 16 * 4 + b2 / 64) :: b64Char (b2 % 64) :: base64EncodeList rest

def base64EncodeString (bs : List Nat) : String :=
  ⟨base64EncodeList bs⟩

/-! ### strings.TrimSpace -/

/-- unicode.IsSpace for the characters relevant here: the ASCII whitespace
set plus the Latin-1 NEL and NBSP special cases of Go's unicode package
(wider Unicode space classes are not reachable from the claims). -/
def isGoSpace (c : Char) : Bool :=
  c = ' ' ∨ c = '\t' ∨ c = '\n' ∨ c = '\x0b' ∨ c = '\x0c' ∨ c = '\r' ∨
    c.toNat = 133 ∨ c.toNat = 160

/-- strings.TrimSpace: drop leading and trailing whitespace. -/
def goTrimSpace (s : String) : String :=
  ⟨((s.data.dropWhile isGoSpace).reverse.dropWhile isGoSpace).reverse⟩

/-! ### http.Request and collaborators -/

/-- The parts of http.Request the upload path touches. -/
structure Request where
  method : String
  url : String
  contentLength : Int
  headers : List (String × String)
  deriving DecidableEq, Repr

/-- req.Header.Set(k, v): replace any existing values for key k. -/
def setHeader (req : Request) (k v : String) : Request :=
  { req with headers := (k, v) :: req.headers.filter (fun p => p.1 ≠ k) }

/-- req.Header.Get(k): first value stored for key k. -/
def getHeader (req : Request) (k : String) : Option String :=
  (req.headers.find? (fun p => p.1 = k)).map (fun p => p.2)

/-- Modelled from the spec: c.signRequest (pkg/client/s3, not among the given
sources) "mutates headers deterministically from method, path, date, and
secret"; modelled as attaching an Authorization header computed from the
request, leaving all other headers intact. -/
def signRequest (req : Request) : Request :=
  { req with headers := ("Authorization", "AWS " ++ req.method ++ " " ++ req.url) :: req.headers }

/-- The parts of http.Response the upload path reads (NewError carries
status and body per the spec). -/
structure TransportResponse where
  statusCode : Nat
  body : String
  deriving DecidableEq, Repr

/-! ### The background upload task of s3Client.Put

The goroutine body of Put, as a pure function. Its two effects on shared
state — r.CloseWithError / r.Close on the pipe reader, and
blockingWriter.Release on the completion gate — are recorded in the result,
together with how often Release ran and how often Transport.RoundTrip ran.
c.newRequest and c.Transport.RoundTrip live outside the given sources, so the
task is parametric in the request-build result and in the transport. -/

structure TaskResult where
  /-- argument of r.CloseWithError, or none for a clean r.Close(). -/
  readerCloseErr : Option GoError
  /-- argument of blockingWriter.Release. -/
  releaseErr : Option GoError
  /-- number of Release calls the task performed. -/
  releaseCalls : Nat
  /-- number of Transport.RoundTrip calls the task performed. -/
  transportCalls : Nat
  /-- the request handed to Transport.RoundTrip, when one was. -/
  requestSent : Option Request
  deriving DecidableEq, Repr

/-- A failure path of the goroutine: r.CloseWithError(err) followed by
blockingWriter.Release(err) and return. -/
def failTask (e : GoError) (calls : Nat) (sent : Option Request) : TaskResult :=
  { readerCloseErr := some e, releaseErr := some e, releaseCalls := 1,
    transportCalls := calls, requestSent := sent }

/-- The tail of the goroutine once the request carries its headers: optional
signing (when both credentials are configured), Transport.RoundTrip, status
interpretation — only http.StatusOK (200) is a success. -/
def sendStage (req2 : Request) (creds : Bool)
    (transport : Request → Except GoError TransportResponse) : TaskResult :=
  let req3 := if creds then signRequest req2 else req2
  match transport req3 with
  | .error e => failTask e 1 (some req3)
  | .ok res =>
    if res.statusCode ≠ 200 then
      failTask (.remoteRejection res.statusCode res.body) 1 (some req3)
    else
      { readerCloseErr := none, releaseErr := none, releaseCalls := 1,
        transportCalls := 1, requestSent := some req3 }

/-- The body of the goroutine spawned by Put: size check, request build,
optional Content-MD5 header from the hex digest, then the send stage. -/
def uploadTask (md5HexString : String) (size : Int)
    (buildReq : Except GoError Request) (creds : Bool)
    (transport : Request → Except GoError TransportResponse) : TaskResult :=
  if size < 0 then
    failTask .invalidArgument 0 none
  else
    match buildReq with
    | .error e => failTask e 0 none
    | .ok req0 =>
      let req1 : Request := { req0 with method := "PUT", contentLength := size }
      let withMD5 : Except GoError Request :=
        if goTrimSpace md5HexString ≠ "" then
          match hexDecodeString md5HexString with
          | none => .error .hexError
          | some md5 => .ok (setHeader req1 "Content-MD5" (base64EncodeString md5))
        else .ok req1
      match withMD5 with
      | .error e => failTask e 0 none
      | .ok req2 => sendStage req2 creds transport

/-! ### io.Pipe writer-side semantics and BlockingWriteCloser -/

/-- The pipe state as seen from the write endpoint. -/
inductive PipeState where
  | opened
  /-- the reader side was closed: r.Close() stores none, r.CloseWithError(e)
  stores some e. -/
  | readerClosed (err : Option GoError)
  | writerClosed
  deriving DecidableEq, Repr

/-- w.Write(p) of io.Pipe: while open, the synchronous hand-off accepts all
bytes (a consuming reader is present for the duration of the transfer); after
r.CloseWithError(e) a write fails with e (io.ErrClosedPipe when e is nil);
after w.Close a write fails with io.ErrClosedPipe. -/
def pipeWrite (st : PipeState) (p : List Nat) : Nat × Option GoError :=
  match st with
  | .opened => (p.length, none)
  | .readerClosed e => (0, some (e.getD .errClosedPipe))
  | .writerClosed => (0, some .errClosedPipe)

/-- BlockingWriteCloser: the pipe write endpoint, the sticky err field, and
the sync.WaitGroup counter of the one-shot release (started at 1 by
NewBlockingWriteCloser). -/
structure BWC where
  pipe : PipeState
  err : Option GoError
  counter : Nat
  deriving DecidableEq, Repr

/-- The handle NewBlockingWriteCloser builds around a fresh pipe. -/
def initHandle : BWC :=
  { pipe := .opened, err := none, counter := 1 }

/-- BlockingWriteCloser.Write: write to the pipe, record a failure in b.err,
and return (n, b.err). -/
def BWC.write (b : BWC) (p : List Nat) : (Nat × Option GoError) × BWC :=
  let n := (pipeWrite b.pipe p).1
  let werr := (pipeWrite b.pipe p).2
  let b1 := if werr.isSome then { b with err := werr } else b
  ((n, b1.err), b1)

def wgPanicMsg : String := "sync: negative WaitGroup counter"

/-- BlockingWriteCloser.Release: wg.Done() — a panic when the counter is
already zero — then record a non-nil err. The panic case leaves the state
untouched: the stored outcome is never overwritten. -/
def BWC.release (b : BWC) (e : Option GoError) : Except String BWC :=
  if b.counter = 0 then .error wgPanicMsg
  else .ok { b with counter := b.counter - 1,
                    err := if e.isSome then e else b.err }

/-- BlockingWriteCloser.Close: b.w.Close() (a pipe writer Close always returns
nil, so b.err is not touched), then wg.Wait(). Wait returns only once the
counter is zero; with no Release pending the sequential model renders the
unbounded block as none. On return Close yields b.err. -/
def BWC.closeOp (b : BWC) : Option (Option GoError × BWC) :=
  let b1 : BWC := { b with pipe := .writerClosed }
  if b1.counter = 0 then some (b1.err, b1) else none

/-! ### The synchronous part of s3Client.Put

Put validates the bucket name (client.IsValidBucketName is an external
collaborator outside the given sources, taken as a parameter, plus the
strings.Contains(bucket, ".") check), then creates the pipe, wraps it in
NewBlockingWriteCloser, spawns the goroutine and returns the handle with a
nil error. The declared size and the digest play no part synchronously. -/
def putSync (isValidBucketName : String → Bool)
    (bucket : String) (md5HexString : String) (size : Int) :
    Except GoError BWC :=
  if ¬ isValidBucketName bucket ∨ bucket.data.contains '.' then
    .error (.invalidBucketName bucket)
  else
    .ok initHandle

/-! ### Interleaving of Release and a blocked Close

BlockingWriteCloser.Release performs b.release.Done() first and the
assignment b.err = err second, while Close performs b.release.Wait() and then
reads b.err; sync.WaitGroup orders Done before the return of Wait, but the
assignment after Done carries no ordering to the read after Wait. The joint
execution is modelled as an explicit interleaving of the two instruction
sequences. The starting point is the moment a failure path of the goroutine
has closed the reader and entered Release(e) while the caller has entered
Close and already run b.w.Close() (which on a pipe writer returns nil and so
leaves b.err alone). -/

structure RaceState where
  counter : Nat
  err : Option GoError
  releasePC : Nat
  closePC : Nat
  closeRet : Option (Option GoError)
  deriving DecidableEq, Repr

def raceInit : RaceState :=
  { counter := 1, err := none, releasePC := 0, closePC := 0, closeRet := none }

/-- One step of the background task inside Release(e): first wg.Done(),
then b.err = e — that order is the source order. -/
def stepRelease (e : GoError) (s : RaceState) : RaceState :=
  match s.releasePC with
  | 0 => { s with counter := s.counter - 1, releasePC := 1 }
  | 1 => { s with err := some e, releasePC := 2 }
  | _ => s

/-- One step of the caller inside Close: wg.Wait() proceeds only once the
counter is zero; afterwards Close reads b.err and returns it. -/
def stepClose (s : RaceState) : RaceState :=
  match s.closePC with
  | 0 => if s.counter = 0 then { s with closePC := 1 } else s
  | 1 => { s with closeRet := some s.err, closePC := 2 }
  | _ => s

/-- Run a schedule: true schedules the background task, false the caller. -/
def raceRun (e : GoError) : List Bool → RaceState → RaceState
  | [], s => s
  | c :: rest, s => raceRun e rest (if c then stepRelease e s else stepClose s)

/-! ### Helper lemmas on headers -/

theorem getHeader_setHeader_self (req : Request) (k v : String) :
    getHeader (setHeader req k v) k = some v := by
  simp [getHeader, setHeader, List.find?]

theorem getHeader_signRequest_contentMD5 (req : Request) :
    getHeader (signRequest req) "Content-MD5" = getHeader req "Content-MD5" := by
  simp [getHeader, signRequest, List.find?]

theorem goTrimSpace_empty : goTrimSpace "" = "" := rfl

theorem if_isSome_self (o : Option GoError) :
    (if o.isSome then o else none) = o := by
  cases o <;> rfl

/-! ### Helper lemmas on the task -/

theorem uploadTask_same_error (md5HexString : String) (size : Int)
    (buildReq : Except GoError Request) (creds : Bool)
    (transport : Request → Except GoError TransportResponse) :
    (uploadTask md5HexString size buildReq creds transport).readerCloseErr =
      (uploadTask md5HexString size buildReq creds transport).releaseErr := by
  unfold uploadTask sendStage
  repeat' first
  | rfl
  | split
  | simp only [failTask]

theorem uploadTask_releaseCalls_one (md5HexString : String) (size : Int)
    (buildReq : Except GoError Request) (creds : Bool)
    (transport : Request → Except GoError TransportResponse) :
    (uploadTask md5HexString size buildReq creds transport).releaseCalls = 1 := by
  unfold uploadTask sendStage
  repeat' first
  | rfl
  | split
  | simp only [failTask]

theorem sendStage_requestSent (req2 : Request) (creds : Bool)
    (transport : Request → Except GoError TransportResponse) (st : Request)
    (h : (sendStage req2 creds transport).requestSent = some st) :
    st = if creds then signRequest req2 else req2 := by
  simp only [sendStage] at h
  rcases htr : transport (if creds then signRequest req2 else req2) with e | r2 <;>
      rw [htr] at h <;> dsimp only at h
  · simp only [failTask, Option.some.injEq] at h
    exact h.symm
  · split at h <;> simp only [failTask, Option.some.injEq] at h <;> exact h.symm

/-! ### Claim theorems -/

/-- C1 counterexample: for declared length -1 and a valid bucket name, Put does
not return a ConfigurationError synchronously — it opens the pipe, spawns the
task and returns the live handle with a nil error; the transport is still
never invoked, and the error surfaces through the gate instead. -/
theorem put_negative_length_returns_handle_not_error :
    putSync (fun _ => true) "bucket" "" (-1) = .ok initHandle ∧
    (uploadTask "" (-1) (.ok { method := "PUT", url := "u", contentLength := 0, headers := [] })
        true (fun _ => .ok { statusCode := 200, body := "" })).transportCalls = 0 ∧
    (uploadTask "" (-1) (.ok { method := "PUT", url := "u", contentLength := 0, headers := [] })
        true (fun _ => .ok { statusCode := 200, body := "" })).releaseErr =
      some .invalidArgument := by
  refine ⟨rfl, rfl, rfl⟩

/-- C1 (amended): for every declared length L < 0 and a valid bucket name,
Put returns the write handle with a nil error; the background task detects the
negative length as its first step and — with zero transport calls — closes the
reader side and resolves the gate with the ConfigurationError
client.InvalidArgument, which Close() then reports. -/
theorem put_negative_length_fails_in_background_without_transport
    (validName : String → Bool) (bucket md5HexString : String) (size : Int)
    (buildReq : Except GoError Request) (creds : Bool)
    (transport : Request → Except GoError TransportResponse)
    (hb : validName bucket = true) (hd : bucket.data.contains '.' = false)
    (hs : size < 0) :
    putSync validName bucket md5HexString size = .ok initHandle ∧
    uploadTask md5HexString size buildReq creds transport =
      failTask .invalidArgument 0 none := by
  constructor
  · have hd2 : '.' ∉ bucket.data := by simpa using hd
    simp [putSync, hb, hd2]
  · simp [uploadTask, hs]

/-- Witness for C1 (amended) at bucket "mybucket", size -2. -/
theorem put_negative_length_fails_in_background_without_transport_witness :
    putSync (fun _ => true) "mybucket" "" (-2) = .ok initHandle ∧
    uploadTask "" (-2) (.error (.requestBuildError "x")) false
        (fun _ => .error (.transportError "t")) =
      failTask .invalidArgument 0 none :=
  put_negative_length_fails_in_background_without_transport (fun _ => true)
    "mybucket" "" (-2) (.error (.requestBuildError "x")) false
    (fun _ => .error (.transportError "t")) rfl (by decide) (by decide)

/-- C2: on every path of the background task — negative length, request-build
error, malformed digest, transport error, non-OK status, success — the task
resolves the gate exactly once, and the error it closes the reader side with
is the very error it releases the gate with (none only on the success path, so
no failure resolves the gate with a stale nil or leaves it unresolved). -/
theorem task_closes_reader_and_releases_same_error
    (md5HexString : String) (size : Int) (buildReq : Except GoError Request)
    (creds : Bool) (transport : Request → Except GoError TransportResponse) :
    (uploadTask md5HexString size buildReq creds transport).readerCloseErr =
      (uploadTask md5HexString size buildReq creds transport).releaseErr ∧
    (uploadTask md5HexString size buildReq creds transport).releaseCalls = 1 :=
  ⟨uploadTask_same_error md5HexString size buildReq creds transport,
   uploadTask_releaseCalls_one md5HexString size buildReq creds transport⟩

/-- C3 (code bug): Release runs wg.Done() before the assignment b.err = err,
and Close reads b.err right after wg.Wait(); under the schedule
Done ∥ Wait ∥ read ∥ assign, Close returns a stale nil even though Release was
invoked — and completes — with a RemoteRejection error, contradicting Close's
own contract of returning the error Release was called with. A schedule that
lets Release finish before Wait passes returns the error as documented. -/
theorem close_release_race_returns_stale_nil :
    (raceRun (.remoteRejection 403 "Forbidden") [true, false, false, true] raceInit).closeRet
        = some none ∧
    (raceRun (.remoteRejection 403 "Forbidden") [true, false, false, true] raceInit).releasePC
        = 2 ∧
    (raceRun (.remoteRejection 403 "Forbidden") [true, false, false, true] raceInit).err
        = some (.remoteRejection 403 "Forbidden") ∧
    (raceRun (.remoteRejection 403 "Forbidden") [true, true, false, false] raceInit).closeRet
        = some (some (.remoteRejection 403 "Forbidden")) := by
  exact ⟨rfl, rfl, rfl, rfl⟩

/-- C5: once the background task has failed — the reader side of the pipe is
closed with an error e — every subsequent Write on the handle accepts zero
bytes and returns that same error e, never a silent success. -/
theorem write_after_failure_returns_error
    (b : BWC) (e : GoError) (p : List Nat)
    (h : b.pipe = .readerClosed (some e)) :
    (b.write p).1 = (0, some e) ∧ ((b.write p).2).err = some e := by
  simp [BWC.write, pipeWrite, h]

/-- Witness for C5: a concrete handle whose pipe was closed with
InvalidArgument, written with three bytes. -/
theorem write_after_failure_returns_error_witness :
    (BWC.write { pipe := .readerClosed (some .invalidArgument), err := none, counter := 1 }
        [104, 105, 33]).1 = (0, some .invalidArgument) ∧
    ((BWC.write { pipe := .readerClosed (some .invalidArgument), err := none, counter := 1 }
        [104, 105, 33]).2).err = some .invalidArgument :=
  write_after_failure_returns_error
    { pipe := .readerClosed (some .invalidArgument), err := none, counter := 1 }
    .invalidArgument [104, 105, 33] rfl

/-- C8: once the gate is resolved (counter at zero), Close returns the stored
outcome, and repeating Close returns the identical outcome again with the
stored err field unchanged between the reads. -/
theorem close_idempotent_after_release
    (b : BWC) (h : b.counter = 0) :
    ∃ b1, b.closeOp = some (b.err, b1) ∧ b1.closeOp = some (b.err, b1) ∧
      b1.err = b.err := by
  refine ⟨{ b with pipe := .writerClosed }, ?_, ?_, rfl⟩ <;>
    simp [BWC.closeOp, h]

/-- Witness for C8 at a resolved handle carrying a RemoteRejection outcome. -/
theorem close_idempotent_after_release_witness :
    ∃ b1, BWC.closeOp { pipe := .opened, err := some (.remoteRejection 403 "Forbidden"), counter := 0 }
        = some (some (.remoteRejection 403 "Forbidden"), b1) ∧
      b1.closeOp = some (some (.remoteRejection 403 "Forbidden"), b1) ∧
      b1.err = some (.remoteRejection 403 "Forbidden") :=
  close_idempotent_after_release
    { pipe := .opened, err := some (.remoteRejection 403 "Forbidden"), counter := 0 } rfl

/-- C10: the err field is sticky: with a recorded error e, a Write whose
underlying pipe write succeeds still returns (len p, e) and keeps e recorded,
and Release(nil) — the success resolution — does not clear e either. -/
theorem err_field_sticky
    (b : BWC) (e : GoError) (p : List Nat)
    (h1 : b.err = some e) (h2 : b.pipe = .opened) (h3 : b.counter = 1) :
    (b.write p).1 = (p.length, some e) ∧ ((b.write p).2).err = some e ∧
    ∃ b1, b.release none = .ok b1 ∧ b1.err = some e := by
  refine ⟨?_, ?_, ?_⟩
  · simp [BWC.write, pipeWrite, h2, h1]
  · simp [BWC.write, pipeWrite, h2, h1]
  · refine ⟨{ b with counter := 0, err := some e }, ?_, rfl⟩
    simp [BWC.release, h3, h1]

/-- Witness for C10 at a handle with a recorded hex error and payload [1, 2]. -/
theorem err_field_sticky_witness :
    (BWC.write { pipe := .opened, err := some .hexError, counter := 1 } [1, 2]).1
        = (2, some .hexError) ∧
    ((BWC.write { pipe := .opened, err := some .hexError, counter := 1 } [1, 2]).2).err
        = some .hexError ∧
    ∃ b1, BWC.release { pipe := .opened, err := some .hexError, counter := 1 } none
        = .ok b1 ∧ b1.err = some .hexError :=
  err_field_sticky { pipe := .opened, err := some .hexError, counter := 1 }
    .hexError [1, 2] rfl rfl rfl

/-- C4: with a non-negative length and a transport answering with response res,
the task resolves the gate (and closes the reader) with none exactly when
res carries status 200, and otherwise with the RemoteRejection error carrying
the response status and body; feeding the resolved outcome through
Release and a blocked Close hands that same outcome to the caller. -/
theorem only_status_200_accepted
    (size : Int) (req : Request) (creds : Bool) (res : TransportResponse)
    (h : 0 ≤ size) :
    ((uploadTask "" size (.ok req) creds (fun _ => .ok res)).releaseErr =
      if res.statusCode = 200 then none
      else some (.remoteRejection res.statusCode res.body)) ∧
    ((uploadTask "" size (.ok req) creds (fun _ => .ok res)).readerCloseErr =
      if res.statusCode = 200 then none
      else some (.remoteRejection res.statusCode res.body)) ∧
    (∃ b1 b2, initHandle.release
        ((uploadTask "" size (.ok req) creds (fun _ => .ok res)).releaseErr) = .ok b1 ∧
      b1.closeOp = some
        ((uploadTask "" size (.ok req) creds (fun _ => .ok res)).releaseErr, b2)) := by
  have hs : ¬ size < 0 := not_lt.mpr h
  refine ⟨?_, ?_, ?_⟩
  · by_cases hc : res.statusCode = 200 <;>
      simp [uploadTask, sendStage, hs, hc, goTrimSpace_empty, failTask]
  · by_cases hc : res.statusCode = 200 <;>
      simp [uploadTask, sendStage, hs, hc, goTrimSpace_empty, failTask]
  · refine ⟨{ pipe := .opened,
              err := (uploadTask "" size (.ok req) creds (fun _ => .ok res)).releaseErr,
              counter := 0 },
            { pipe := .writerClosed,
              err := (uploadTask "" size (.ok req) creds (fun _ => .ok res)).releaseErr,
              counter := 0 }, ?_, ?_⟩
    · simp [BWC.release, initHandle, if_isSome_self]
    · simp [BWC.closeOp]

/-- Witness for C4: a stub transport answering 403 with body "Forbidden"
resolves the gate with RemoteRejection 403 "Forbidden", and one answering 200
resolves it with none. -/
theorem only_status_200_accepted_witness :
    (uploadTask "" 5 (.ok { method := "PUT", url := "u", contentLength := 0, headers := [] })
        false (fun _ => .ok { statusCode := 403, body := "Forbidden" })).releaseErr =
      some (.remoteRejection 403 "Forbidden") ∧
    (uploadTask "" 5 (.ok { method := "PUT", url := "u", contentLength := 0, headers := [] })
        false (fun _ => .ok { statusCode := 200, body := "" })).releaseErr = none := by
  constructor
  · have h := only_status_200_accepted 5
      { method := "PUT", url := "u", contentLength := 0, headers := [] } false
      { statusCode := 403, body := "Forbidden" } (by decide)
    simpa using h.1
  · have h := only_status_200_accepted 5
      { method := "PUT", url := "u", contentLength := 0, headers := [] } false
      { statusCode := 200, body := "" } (by decide)
    simpa using h.1

/-- C6 counterexample: the digest string " " is non-empty and is not valid hex
(hex.DecodeString fails on it), yet the upload does not fail before the
transport call: strings.TrimSpace reduces it to "", the integrity block is
skipped, RoundTrip is invoked once and the upload succeeds. -/
theorem whitespace_digest_skips_hex_validation :
    hexDecodeString " " = none ∧ (" " : String) ≠ "" ∧
    (uploadTask " " 0 (.ok { method := "PUT", url := "u", contentLength := 0, headers := [] })
        false (fun _ => .ok { statusCode := 200, body := "" })).transportCalls = 1 ∧
    (uploadTask " " 0 (.ok { method := "PUT", url := "u", contentLength := 0, headers := [] })
        false (fun _ => .ok { statusCode := 200, body := "" })).releaseErr = none := by
  refine ⟨rfl, by decide, rfl, rfl⟩

/-- C6 (amended): for every digest string with non-whitespace content (that
is, one surviving strings.TrimSpace): if it is not valid hex the task fails
with the hex ConfigurationError before any transport call, and if it is valid
hex the request handed to RoundTrip carries Content-MD5 set to exactly the
standard base64 encoding of the hex-decoded bytes. -/
theorem digest_validation_before_transport
    (md5HexString : String) (size : Int) (req : Request) (creds : Bool)
    (transport : Request → Except GoError TransportResponse)
    (h1 : goTrimSpace md5HexString ≠ "") (hsz : 0 ≤ size) :
    (hexDecodeString md5HexString = none →
      uploadTask md5HexString size (.ok req) creds transport =
        failTask .hexError 0 none) ∧
    (∀ md5bytes, hexDecodeString md5HexString = some md5bytes →
      ∀ st, (uploadTask md5HexString size (.ok req) creds transport).requestSent
          = some st →
        getHeader st "Content-MD5" = some (base64EncodeString md5bytes)) := by
  have hs : ¬ size < 0 := not_lt.mpr hsz
  constructor
  · intro hdec
    simp [uploadTask, hs, h1, hdec]
  · intro md5bytes hdec st hsent
    simp only [uploadTask, if_neg hs, if_pos h1, hdec] at hsent
    have hst := sendStage_requestSent _ creds transport st hsent
    subst hst
    cases creds
    · simpa using getHeader_setHeader_self
        { req with method := "PUT", contentLength := size } "Content-MD5"
        (base64EncodeString md5bytes)
    · simp only [if_pos]
      rw [getHeader_signRequest_contentMD5]
      exact getHeader_setHeader_self
        { req with method := "PUT", contentLength := size } "Content-MD5"
        (base64EncodeString md5bytes)

/-- Witness for C6 (amended): the malformed digest "zz" aborts with the hex
error and zero transport calls, and the valid digest
d41d8cd98f00b204e9800998ecf8427e yields the Content-MD5 value
1B2M2Y8AsgTpgAmY7PhCfg== on the request sent. -/
theorem digest_validation_before_transport_witness :
    uploadTask "zz" 1 (.ok { method := "PUT", url := "u", contentLength := 0, headers := [] })
        false (fun _ => .ok { statusCode := 200, body := "" }) =
      failTask .hexError 0 none ∧
    ∀ st, (uploadTask "d41d8cd98f00b204e9800998ecf8427e" 1
        (.ok { method := "PUT", url := "u", contentLength := 0, headers := [] })
        false (fun _ => .ok { statusCode := 200, body := "" })).requestSent = some st →
      getHeader st "Content-MD5" = some "1B2M2Y8AsgTpgAmY7PhCfg==" := by
  constructor
  · exact (digest_validation_before_transport "zz" 1
      { method := "PUT", url := "u", contentLength := 0, headers := [] } false
      (fun _ => .ok { statusCode := 200, body := "" }) (by decide) (by decide)).1 rfl
  · intro st hst
    have h2 := (digest_validation_before_transport "d41d8cd98f00b204e9800998ecf8427e" 1
      { method := "PUT", url := "u", contentLength := 0, headers := [] } false
      (fun _ => .ok { statusCode := 200, body := "" }) (by decide) (by decide)).2
      [212, 29, 140, 217, 143, 0, 178, 4, 233, 128, 9, 152, 236, 248, 66, 126] rfl st hst
    have e : base64EncodeString
        [212, 29, 140, 217, 143, 0, 178, 4, 233, 128, 9, 152, 236, 248, 66, 126] =
        "1B2M2Y8AsgTpgAmY7PhCfg==" := rfl
    rw [e] at h2
    exact h2

/-- C7: the background task calls Release exactly once on every path, and a
second Release on the same handle panics in wg.Done with the negative-counter
message, leaving the stored outcome of the first Release untouched. -/
theorem release_called_once_and_second_release_panics
    (md5HexString : String) (size : Int) (buildReq : Except GoError Request)
    (creds : Bool) (transport : Request → Except GoError TransportResponse)
    (b : BWC) (e1 e2 : Option GoError) (h : b.counter = 1) :
    (uploadTask md5HexString size buildReq creds transport).releaseCalls = 1 ∧
    ∃ b1, b.release e1 = .ok b1 ∧ b1.release e2 = .error wgPanicMsg ∧
      b1.err = (if e1.isSome then e1 else b.err) := by
  refine ⟨uploadTask_releaseCalls_one md5HexString size buildReq creds transport,
    ⟨{ b with counter := 0, err := if e1.isSome then e1 else b.err }, ?_, ?_, rfl⟩⟩
  · simp [BWC.release, h]
  · simp [BWC.release]

/-- Witness for C7 at a fresh handle: first Release with InvalidArgument
succeeds, second Release (with nil) panics. -/
theorem release_called_once_and_second_release_panics_witness :
    (uploadTask "" 0 (.ok { method := "PUT", url := "u", contentLength := 0, headers := [] })
        false (fun _ => .ok { statusCode := 200, body := "" })).releaseCalls = 1 ∧
    ∃ b1, initHandle.release (some .invalidArgument) = .ok b1 ∧
      b1.release none = .error wgPanicMsg ∧
      b1.err = (if (some GoError.invalidArgument).isSome then some .invalidArgument
                else initHandle.err) :=
  release_called_once_and_second_release_panics "" 0
    (.ok { method := "PUT", url := "u", contentLength := 0, headers := [] })
    false (fun _ => .ok { statusCode := 200, body := "" })
    initHandle (some .invalidArgument) none rfl

/-- C9: a digest string that trims to empty means no integrity check: the task
behaves identically to one given the empty digest, and (when the built request
carries no Content-MD5 header of its own) the request handed to RoundTrip has
no Content-MD5 header. -/
theorem blank_digest_means_no_integrity_check
    (md5HexString : String) (size : Int) (req : Request) (creds : Bool)
    (transport : Request → Except GoError TransportResponse)
    (h1 : goTrimSpace md5HexString = "") (hsz : 0 ≤ size)
    (h3 : getHeader req "Content-MD5" = none) :
    uploadTask md5HexString size (.ok req) creds transport =
      uploadTask "" size (.ok req) creds transport ∧
    ∀ st, (uploadTask md5HexString size (.ok req) creds transport).requestSent
        = some st →
      getHeader st "Content-MD5" = none := by
  have hs : ¬ size < 0 := not_lt.mpr hsz
  constructor
  · simp [uploadTask, hs, h1, goTrimSpace_empty]
  · intro st hsent
    simp only [uploadTask, if_neg hs, h1, ne_eq, not_true_eq_false, if_neg,
      not_false_eq_true] at hsent
    have hst := sendStage_requestSent _ creds transport st hsent
    subst hst
    cases creds
    · exact h3
    · simp only [if_pos]
      rw [getHeader_signRequest_contentMD5]
      exact h3

/-- Witness for C9 with the whitespace digest " \t ". -/
theorem blank_digest_means_no_integrity_check_witness :
    uploadTask " \t " 3 (.ok { method := "", url := "u", contentLength := 0, headers := [] })
        true (fun _ => .ok { statusCode := 200, body := "" }) =
      uploadTask "" 3 (.ok { method := "", url := "u", contentLength := 0, headers := [] })
        true (fun _ => .ok { statusCode := 200, body := "" }) ∧
    ∀ st, (uploadTask " \t " 3
        (.ok { method := "", url := "u", contentLength := 0, headers := [] })
        true (fun _ => .ok { statusCode := 200, body := "" })).requestSent = some st →
      getHeader st "Content-MD5" = none :=
  blank_digest_means_no_integrity_check " \t " 3
    { method := "", url := "u", contentLength := 0, headers := [] } true
    (fun _ => .ok { statusCode := 200, body := "" }) rfl (by decide) rfl

end MC
